import Mathlib

/-!
Shallow embedding of GIMP's mirror symmetry module
(`src/app/paint/gimpmirror.c`): stroke-position derivation, transform
descriptor selection with a (width, height) cache, guide lifecycle and
property setters.  Doubles (`gdouble`) are modelled as rationals, `gint`
as `Int`, GObject pointers as `Bool` (handle present) plus explicit
host-side state.  Host collaborators that live outside the file
(multi-stroke base class, image guide collection, guide objects) are
modelled as explicit fields of a world record, following the spec where
their code is not available.
-/

/-- Model of `GimpCoords` (defined in `core/gimpcoords.h`, outside the
provided sources).  Besides the position `x`, `y` it carries the
dynamics fields the mirror code copies verbatim via `g_memdup`; the
representative extra fields here stand for all non-position fields. -/
structure GimpCoords where
  x : ℚ
  y : ℚ
  pressure : ℚ
  xtilt : ℚ
  ytilt : ℚ
  wheel : ℚ
  velocity : ℚ
  direction : ℚ
deriving DecidableEq, Repr

/-- A GEGL transform descriptor as built by
`gimp_mirror_prepare_operations`: either a `gegl:reflect` node with an
origin point and a direction vector, or a `gegl:rotate` node with an
origin point and an angle in degrees. -/
inductive GeglNode where
  | reflect (originX originY x y : ℚ)
  | rotate (originX originY degrees : ℚ)
deriving DecidableEq, Repr

/-- The `GimpMirror` instance struct together with the fields it uses
from its `GimpMultiStroke` base (`origin`, `strokes`).  Guide handles
(`GimpMirrorGuide *`) are modelled as `Bool`: `true` iff the pointer is
non-NULL.  The three cached GEGL operations are `Option GeglNode`
(`none` = NULL). -/
structure GimpMirror where
  horizontal_mirror : Bool
  vertical_mirror : Bool
  point_symmetry : Bool
  disable_transformation : Bool
  horizontal_position : ℚ
  vertical_position : ℚ
  horizontal_guide : Bool
  vertical_guide : Bool
  last_paint_width : Int
  last_paint_height : Int
  horizontal_op : Option GeglNode
  vertical_op : Option GeglNode
  central_op : Option GeglNode
  origin : Option GimpCoords
  strokes : List GimpCoords
deriving DecidableEq, Repr

/-- `gimp_mirror_update_strokes`: rebuilds the stroke list from one
origin coordinate.  Each copy is a `g_memdup` of the whole `GimpCoords`
record with only the mirrored components overwritten; the list is
assembled by prepending and reversed at the end, exactly as in the C
code. -/
def gimp_mirror_update_strokes (mirror : GimpMirror) (origin : GimpCoords) :
    List GimpCoords :=
  let strokes : List GimpCoords := [origin]
  let strokes :=
    if mirror.horizontal_mirror then
      { origin with y := 2 * mirror.horizontal_position - origin.y } :: strokes
    else strokes
  let strokes :=
    if mirror.vertical_mirror then
      { origin with x := 2 * mirror.vertical_position - origin.x } :: strokes
    else strokes
  let strokes :=
    if mirror.point_symmetry then
      { origin with
        x := 2 * mirror.vertical_position - origin.x
        y := 2 * mirror.horizontal_position - origin.y } :: strokes
    else strokes
  strokes.reverse

/-- `gimp_mirror_prepare_operations`: if the requested paint dimensions
equal the cached pair, nothing is rebuilt (the state is returned
untouched); otherwise the cache pair is updated and all three transform
descriptors are regenerated from the new dimensions. -/
def gimp_mirror_prepare_operations (mirror : GimpMirror)
    (paint_width paint_height : Int) : GimpMirror :=
  if paint_width = mirror.last_paint_width ∧
     paint_height = mirror.last_paint_height then
    mirror
  else
    { mirror with
      last_paint_width := paint_width
      last_paint_height := paint_height
      horizontal_op :=
        some (GeglNode.reflect 0 ((paint_height : ℚ) / 2) 1 0)
      vertical_op :=
        some (GeglNode.reflect ((paint_width : ℚ) / 2) 0 0 1)
      central_op :=
        some (GeglNode.rotate ((paint_width : ℚ) / 2)
          ((paint_height : ℚ) / 2) 180) }

/-- `gimp_mirror_get_operation`: the guarding
`g_return_val_if_fail (stroke >= 0 && stroke < length, NULL)` is a
GLib programming-contract check (caller bug, fatal under
`fatal-criticals`); it is modelled as `Except.error`.  On the normal
path the function first runs `gimp_mirror_prepare_operations`, then
selects the descriptor by stroke index and active flags, returning
`none` for the identity cases. -/
def gimp_mirror_get_operation (mirror : GimpMirror)
    (stroke paint_width paint_height : Int) :
    Except Unit (GimpMirror × Option GeglNode) :=
  if ¬ (0 ≤ stroke ∧ stroke < (mirror.strokes.length : Int)) then
    .error ()
  else
    let mirror := gimp_mirror_prepare_operations mirror paint_width paint_height
    let op : Option GeglNode :=
      if mirror.disable_transformation ∨ stroke = 0 ∨
         paint_width = 0 ∨ paint_height = 0 then
        none
      else if stroke = 1 ∧ mirror.horizontal_mirror then
        mirror.horizontal_op
      else if (stroke = 2 ∧ mirror.horizontal_mirror ∧
               mirror.vertical_mirror) ∨
              (stroke = 1 ∧ mirror.vertical_mirror ∧
               ¬ mirror.horizontal_mirror) then
        mirror.vertical_op
      else
        mirror.central_op
    .ok (mirror, op)

/-- The mirror together with the host-side state the setters and
callbacks interact with: the image extent, whether each mirror guide is
currently in the image's guide collection, the live position of each
guide object, and a counter of `gimp_image_remove_multi_stroke`
teardown signals.  Signal (dis)connection is not modelled separately:
in the C code a handler is connected exactly while the guide is in the
collection. -/
structure MirrorWorld where
  mirror : GimpMirror
  imageWidth : Int
  imageHeight : Int
  hGuideAttached : Bool
  vGuideAttached : Bool
  hGuidePos : ℚ
  vGuidePos : ℚ
  removedCount : Nat
deriving DecidableEq, Repr

/-- Modelled from the spec: `gimp_multi_stroke_set_origin` (base class,
not among the provided sources) re-runs the full origin-setting path,
which re-derives the stroke list from the given origin under the
current state. -/
def gimp_multi_stroke_set_origin (w : MirrorWorld) (origin : GimpCoords) :
    MirrorWorld :=
  { w with mirror :=
      { w.mirror with
        origin := some origin
        strokes := gimp_mirror_update_strokes w.mirror origin } }

/-- `gimp_mirror_reset`: if an origin has been recorded, re-run the
origin-setting path on it (re-deriving the strokes); otherwise do
nothing. -/
def gimp_mirror_reset (w : MirrorWorld) : MirrorWorld :=
  match w.mirror.origin with
  | none => w
  | some o => gimp_multi_stroke_set_origin w o

/-- `gimp_mirror_set_horizontal_symmetry`: no-op if the flag already
has the requested value; on activation lazily create the guide (with
position defaulting to half the image height) and add it to the image's
guide collection at the stored position; on deactivation, unless point
symmetry still needs the guide, remove it from the collection
non-destructively (handle retained).  Ends with `gimp_mirror_reset`. -/
def gimp_mirror_set_horizontal_symmetry (w : MirrorWorld) (active : Bool) :
    MirrorWorld :=
  if active = w.mirror.horizontal_mirror then w
  else
    let m := { w.mirror with horizontal_mirror := active }
    let w :=
      if active then
        let m :=
          if ¬ m.horizontal_guide then
            { m with
              horizontal_position := (w.imageHeight : ℚ) / 2
              horizontal_guide := true }
          else m
        { w with
          mirror := m
          hGuideAttached := true
          hGuidePos := m.horizontal_position }
      else if ¬ m.point_symmetry then
        { w with mirror := m, hGuideAttached := false }
      else
        { w with mirror := m }
    gimp_mirror_reset w

/-- `gimp_mirror_set_vertical_symmetry`: symmetric to the horizontal
setter, on the vertical axis (guide position defaults to half the image
width). -/
def gimp_mirror_set_vertical_symmetry (w : MirrorWorld) (active : Bool) :
    MirrorWorld :=
  if active = w.mirror.vertical_mirror then w
  else
    let m := { w.mirror with vertical_mirror := active }
    let w :=
      if active then
        let m :=
          if ¬ m.vertical_guide then
            { m with
              vertical_position := (w.imageWidth : ℚ) / 2
              vertical_guide := true }
          else m
        { w with
          mirror := m
          vGuideAttached := true
          vGuidePos := m.vertical_position }
      else if ¬ m.point_symmetry then
        { w with mirror := m, vGuideAttached := false }
      else
        { w with mirror := m }
    gimp_mirror_reset w

/-- `gimp_mirror_set_point_symmetry`: no-op if the flag already has the
requested value; on activation, for each axis whose own flag is false,
lazily create that guide and add it to the collection; on deactivation,
for each axis whose own flag is false, remove that guide from the
collection non-destructively.  Ends with `gimp_mirror_reset`. -/
def gimp_mirror_set_point_symmetry (w : MirrorWorld) (active : Bool) :
    MirrorWorld :=
  if active = w.mirror.point_symmetry then w
  else
    let m := { w.mirror with point_symmetry := active }
    let w :=
      if active then
        let w :=
          if m.horizontal_mirror = false then
            let m :=
              if m.horizontal_guide = false then
                { m with
                  horizontal_position := (w.imageHeight : ℚ) / 2
                  horizontal_guide := true }
              else m
            { w with
              mirror := m
              hGuideAttached := true
              hGuidePos := m.horizontal_position }
          else { w with mirror := m }
        if w.mirror.vertical_mirror = false then
          let m :=
            if w.mirror.vertical_guide = false then
              { w.mirror with
                vertical_position := (w.imageWidth : ℚ) / 2
                vertical_guide := true }
            else w.mirror
          { w with
            mirror := m
            vGuideAttached := true
            vGuidePos := m.vertical_position }
        else w
      else
        let w :=
          if m.horizontal_mirror = false then
            { w with mirror := m, hGuideAttached := false }
          else { w with mirror := m }
        if w.mirror.vertical_mirror = false then
          { w with vGuideAttached := false }
        else w
    gimp_mirror_reset w

/-- The two axes a mirror guide can belong to. -/
inductive MirrorAxis where
  | horizontal
  | vertical
deriving DecidableEq, Repr

/-- `gimp_mirror_guide_removed_cb`: host-driven callback fired when a
guide is removed from the image by the host.  The C code dispatches by
comparing the signalling object against the stored guide pointers; here
the axis of the signalling guide is passed directly (the handler is
only ever connected to a live stored guide).  It releases that axis's
handle, clears that axis's flag, the point-symmetry flag and that
axis's position, then either signals full feature removal (when both
handles are now gone) or re-derives the strokes. -/
def gimp_mirror_guide_removed_cb (w : MirrorWorld) (axis : MirrorAxis) :
    MirrorWorld :=
  let w :=
    match axis with
    | .horizontal =>
        { w with mirror :=
            { w.mirror with
              horizontal_guide := false
              horizontal_mirror := false
              point_symmetry := false
              horizontal_position := 0 } }
    | .vertical =>
        { w with mirror :=
            { w.mirror with
              vertical_guide := false
              vertical_mirror := false
              point_symmetry := false
              vertical_position := 0 } }
  if w.mirror.horizontal_guide = false ∧ w.mirror.vertical_guide = false then
    { w with removedCount := w.removedCount + 1 }
  else
    gimp_mirror_reset w

/-- `gimp_mirror_guide_position_cb`: host-driven callback fired when a
live guide's position changes; copies the new position into the stored
position field of the matching axis.  It does not re-derive strokes. -/
def gimp_mirror_guide_position_cb (w : MirrorWorld) (axis : MirrorAxis)
    (newPosition : ℚ) : MirrorWorld :=
  match axis with
  | .horizontal =>
      { w with mirror := { w.mirror with horizontal_position := newPosition } }
  | .vertical =>
      { w with mirror := { w.mirror with vertical_position := newPosition } }

/-- The `PROP_HORIZONTAL_POSITION` case of `gimp_mirror_set_property`:
store the value; if the horizontal guide handle exists, also move the
live guide object via `gimp_guide_set_position`. -/
def gimp_mirror_set_horizontal_position (w : MirrorWorld) (value : ℚ) :
    MirrorWorld :=
  let w := { w with mirror := { w.mirror with horizontal_position := value } }
  if w.mirror.horizontal_guide then { w with hGuidePos := value } else w

/-- The `PROP_VERTICAL_POSITION` case of `gimp_mirror_set_property`:
store the value; if the vertical guide handle exists, also move the
live guide object via `gimp_guide_set_position`. -/
def gimp_mirror_set_vertical_position (w : MirrorWorld) (value : ℚ) :
    MirrorWorld :=
  let w := { w with mirror := { w.mirror with vertical_position := value } }
  if w.mirror.vertical_guide then { w with vGuidePos := value } else w

/-- Field-preservation facts for `gimp_mirror_prepare_operations`: the
cache rebuild touches only the cache fields. -/
@[simp] lemma prepare_operations_horizontal_mirror (m : GimpMirror)
    (pw ph : Int) :
    (gimp_mirror_prepare_operations m pw ph).horizontal_mirror =
      m.horizontal_mirror := by
  unfold gimp_mirror_prepare_operations; split <;> rfl

@[simp] lemma prepare_operations_vertical_mirror (m : GimpMirror)
    (pw ph : Int) :
    (gimp_mirror_prepare_operations m pw ph).vertical_mirror =
      m.vertical_mirror := by
  unfold gimp_mirror_prepare_operations; split <;> rfl

@[simp] lemma prepare_operations_point_symmetry (m : GimpMirror)
    (pw ph : Int) :
    (gimp_mirror_prepare_operations m pw ph).point_symmetry =
      m.point_symmetry := by
  unfold gimp_mirror_prepare_operations; split <;> rfl

@[simp] lemma prepare_operations_disable (m : GimpMirror) (pw ph : Int) :
    (gimp_mirror_prepare_operations m pw ph).disable_transformation =
      m.disable_transformation := by
  unfold gimp_mirror_prepare_operations; split <;> rfl

@[simp] lemma prepare_operations_strokes (m : GimpMirror) (pw ph : Int) :
    (gimp_mirror_prepare_operations m pw ph).strokes = m.strokes := by
  unfold gimp_mirror_prepare_operations; split <;> rfl

/-- Reachability invariant of the transform cache: either it is in its
zero-initialised state (GObject instance memory starts zeroed), or the
three descriptors match the cached dimension pair, as
`gimp_mirror_prepare_operations` leaves them. -/
def opsCacheConsistent (m : GimpMirror) : Prop :=
  (m.horizontal_op = none ∧ m.vertical_op = none ∧ m.central_op = none ∧
   m.last_paint_width = 0 ∧ m.last_paint_height = 0) ∨
  (m.horizontal_op =
     some (GeglNode.reflect 0 ((m.last_paint_height : ℚ) / 2) 1 0) ∧
   m.vertical_op =
     some (GeglNode.reflect ((m.last_paint_width : ℚ) / 2) 0 0 1) ∧
   m.central_op =
     some (GeglNode.rotate ((m.last_paint_width : ℚ) / 2)
       ((m.last_paint_height : ℚ) / 2) 180))

lemma prepare_operations_ops (m : GimpMirror) (pw ph : Int)
    (hw : 0 < pw) (hh : 0 < ph) (hc : opsCacheConsistent m) :
    (gimp_mirror_prepare_operations m pw ph).horizontal_op =
      some (GeglNode.reflect 0 ((ph : ℚ) / 2) 1 0) ∧
    (gimp_mirror_prepare_operations m pw ph).vertical_op =
      some (GeglNode.reflect ((pw : ℚ) / 2) 0 0 1) ∧
    (gimp_mirror_prepare_operations m pw ph).central_op =
      some (GeglNode.rotate ((pw : ℚ) / 2) ((ph : ℚ) / 2) 180) := by
  unfold gimp_mirror_prepare_operations
  split
  · rename_i hcase
    obtain ⟨hw', hh'⟩ := hcase
    rcases hc with ⟨_, _, _, hz, _⟩ | ⟨h1, h2, h3⟩
    · omega
    · subst hw' hh'
      exact ⟨h1, h2, h3⟩
  · exact ⟨rfl, rfl, rfl⟩

/-- C1: `gimp_mirror_update_strokes` emits the unmodified origin first,
then the horizontal-mirrored copy if active, then the vertical-mirrored
copy if active, then the point-symmetric copy if active; the length is
one plus the number of active flags, nothing is deduplicated, and with
no flag active the list is exactly the origin singleton. -/
theorem gimp_mirror_update_strokes_spec (m : GimpMirror) (o : GimpCoords) :
    gimp_mirror_update_strokes m o =
      o ::
        ((if m.horizontal_mirror then
            [{ o with y := 2 * m.horizontal_position - o.y }] else []) ++
         (if m.vertical_mirror then
            [{ o with x := 2 * m.vertical_position - o.x }] else []) ++
         (if m.point_symmetry then
            [{ o with
               x := 2 * m.vertical_position - o.x
               y := 2 * m.horizontal_position - o.y }] else [])) ∧
    (gimp_mirror_update_strokes m o).length =
      1 + (if m.horizontal_mirror then 1 else 0) +
        (if m.vertical_mirror then 1 else 0) +
        (if m.point_symmetry then 1 else 0) ∧
    (m.horizontal_mirror = false → m.vertical_mirror = false →
      m.point_symmetry = false → gimp_mirror_update_strokes m o = [o]) := by
  cases hh : m.horizontal_mirror <;> cases hv : m.vertical_mirror <;>
    cases hp : m.point_symmetry <;>
      simp [gimp_mirror_update_strokes, hh, hv, hp]

/-- C9: every derived coordinate is a verbatim copy of the origin in
all fields except the reflected position components: the
horizontal-mirror copy (right after the origin) changes only `y`, the
vertical-mirror copy only `x`, and the point-symmetry copy only `x` and
`y`; pressure, tilt and the other dynamics fields are preserved in
every emitted coordinate. -/
theorem gimp_mirror_update_strokes_frame_spec (m : GimpMirror)
    (o : GimpCoords) :
    (∀ c ∈ gimp_mirror_update_strokes m o,
      c.pressure = o.pressure ∧ c.xtilt = o.xtilt ∧ c.ytilt = o.ytilt ∧
      c.wheel = o.wheel ∧ c.velocity = o.velocity ∧
      c.direction = o.direction) ∧
    (m.horizontal_mirror = true →
      (gimp_mirror_update_strokes m o)[1]? =
        some { o with y := 2 * m.horizontal_position - o.y }) ∧
    (m.vertical_mirror = true →
      (gimp_mirror_update_strokes m o)[
          1 + (if m.horizontal_mirror then 1 else 0)]? =
        some { o with x := 2 * m.vertical_position - o.x }) ∧
    (m.point_symmetry = true →
      (gimp_mirror_update_strokes m o)[
          1 + (if m.horizontal_mirror then 1 else 0) +
            (if m.vertical_mirror then 1 else 0)]? =
        some { o with
               x := 2 * m.vertical_position - o.x
               y := 2 * m.horizontal_position - o.y }) := by
  cases hh : m.horizontal_mirror <;> cases hv : m.vertical_mirror <;>
    cases hp : m.point_symmetry <;>
      simp [gimp_mirror_update_strokes, hh, hv, hp]

/-- C4: calling `gimp_mirror_get_operation` with a stroke index outside
the range of the current stroke list trips the
`g_return_val_if_fail` programming-contract guard: the call is a
contract violation and never reaches the normal result path. -/
theorem gimp_mirror_get_operation_invalid_index_spec (m : GimpMirror)
    (stroke paint_width paint_height : Int)
    (hbad : ¬ (0 ≤ stroke ∧ stroke < (m.strokes.length : Int))) :
    gimp_mirror_get_operation m stroke paint_width paint_height =
      .error () := by
  simp only [gimp_mirror_get_operation, if_pos hbad]

/-- C3: for a valid stroke index, `gimp_mirror_get_operation` returns
no transform (NULL, identity) whenever `disable_transformation` is set,
or the stroke index is 0, or the paint width or height is 0 — in
particular `disable_transformation` forces the identity result for
every valid index and flag combination, and index 0 always yields
identity. -/
theorem gimp_mirror_get_operation_identity_spec (m : GimpMirror)
    (stroke paint_width paint_height : Int)
    (hs : 0 ≤ stroke) (hl : stroke < (m.strokes.length : Int))
    (hid : m.disable_transformation = true ∨ stroke = 0 ∨
      paint_width = 0 ∨ paint_height = 0) :
    gimp_mirror_get_operation m stroke paint_width paint_height =
      .ok (gimp_mirror_prepare_operations m paint_width paint_height,
        none) := by
  have hok : ¬ ¬ (0 ≤ stroke ∧ stroke < (m.strokes.length : Int)) :=
    not_not_intro ⟨hs, hl⟩
  simp only [gimp_mirror_get_operation, if_neg hok]
  rcases hid with h | h | h | h <;> simp [h]

/-- C7: `gimp_mirror_prepare_operations` is a no-op on a cache hit (the
returned state, descriptors included, is identical, so consecutive
calls with the same dimensions share the very same descriptors —
restated as idempotence of a repeated call); on a cache miss all three
descriptors are rebuilt from the new dimensions and the cached pair is
updated. -/
theorem gimp_mirror_prepare_operations_cache_spec (m : GimpMirror)
    (pw ph : Int) :
    (pw = m.last_paint_width ∧ ph = m.last_paint_height →
      gimp_mirror_prepare_operations m pw ph = m) ∧
    gimp_mirror_prepare_operations
        (gimp_mirror_prepare_operations m pw ph) pw ph =
      gimp_mirror_prepare_operations m pw ph ∧
    (¬ (pw = m.last_paint_width ∧ ph = m.last_paint_height) →
      gimp_mirror_prepare_operations m pw ph =
        { m with
          last_paint_width := pw
          last_paint_height := ph
          horizontal_op := some (GeglNode.reflect 0 ((ph : ℚ) / 2) 1 0)
          vertical_op := some (GeglNode.reflect ((pw : ℚ) / 2) 0 0 1)
          central_op := some (GeglNode.rotate ((pw : ℚ) / 2)
            ((ph : ℚ) / 2) 180) }) := by
  refine ⟨fun hhit => ?_, ?_, fun hmiss => ?_⟩
  · simp only [gimp_mirror_prepare_operations, if_pos hhit]
  · by_cases hhit : pw = m.last_paint_width ∧ ph = m.last_paint_height
    · simp only [gimp_mirror_prepare_operations, if_pos hhit]
    · have h1 : gimp_mirror_prepare_operations m pw ph =
          { m with
            last_paint_width := pw
            last_paint_height := ph
            horizontal_op := some (GeglNode.reflect 0 ((ph : ℚ) / 2) 1 0)
            vertical_op := some (GeglNode.reflect ((pw : ℚ) / 2) 0 0 1)
            central_op := some (GeglNode.rotate ((pw : ℚ) / 2)
              ((ph : ℚ) / 2) 180) } := by
        simp only [gimp_mirror_prepare_operations, if_neg hhit]
      rw [h1]
      simp [gimp_mirror_prepare_operations]
  · simp only [gimp_mirror_prepare_operations, if_neg hmiss]

lemma gimp_mirror_get_operation_normal (m : GimpMirror)
    (stroke paint_width paint_height : Int)
    (hok : 0 ≤ stroke ∧ stroke < (m.strokes.length : Int))
    (hd : m.disable_transformation = false)
    (hs0 : stroke ≠ 0) (hw0 : paint_width ≠ 0) (hh0 : paint_height ≠ 0) :
    gimp_mirror_get_operation m stroke paint_width paint_height =
      .ok (gimp_mirror_prepare_operations m paint_width paint_height,
        if stroke = 1 ∧ m.horizontal_mirror = true then
          (gimp_mirror_prepare_operations m paint_width
            paint_height).horizontal_op
        else if (stroke = 2 ∧ m.horizontal_mirror = true ∧
                 m.vertical_mirror = true) ∨
                (stroke = 1 ∧ m.vertical_mirror = true ∧
                 m.horizontal_mirror = false) then
          (gimp_mirror_prepare_operations m paint_width
            paint_height).vertical_op
        else
          (gimp_mirror_prepare_operations m paint_width
            paint_height).central_op) := by
  simp only [gimp_mirror_get_operation, if_neg (not_not_intro hok)]
  simp [hd, hs0, hw0, hh0]

@[simp] lemma int_toNat_two : (2 : Int).toNat = 2 := rfl

@[simp] lemma int_toNat_three : (3 : Int).toNat = 3 := rfl

@[simp] lemma reflect_ne_rotate (a b c d e f g : ℚ) :
    GeglNode.reflect a b c d ≠ GeglNode.rotate e f g := fun h =>
  GeglNode.noConfusion h

@[simp] lemma rotate_ne_reflect (a b c d e f g : ℚ) :
    GeglNode.rotate e f g ≠ GeglNode.reflect a b c d := fun h =>
  GeglNode.noConfusion h

/-- C2: on the normal path (transforms enabled, positive index and
paint extent, valid index into a freshly derived stroke list, transform
cache in a reachable state) the selected descriptor is the horizontal
reflection exactly when the index is 1 and horizontal is active, the
vertical reflection exactly when (index 2 with both axes active) or
(index 1 with vertical active and horizontal inactive), and the 180°
central rotation in every remaining case; positionally, whichever
descriptor is selected matches the mirror formula that produced the
coordinate at that index of the derived stroke list. -/
theorem gimp_mirror_get_operation_selection_spec (m : GimpMirror)
    (o : GimpCoords) (stroke paint_width paint_height : Int)
    (hd : m.disable_transformation = false)
    (hw : 0 < paint_width) (hh : 0 < paint_height)
    (hc : opsCacheConsistent m)
    (hstrokes : m.strokes = gimp_mirror_update_strokes m o)
    (h1 : 1 ≤ stroke) (h2 : stroke < (m.strokes.length : Int)) :
    ∃ op : GeglNode,
      gimp_mirror_get_operation m stroke paint_width paint_height =
        .ok (gimp_mirror_prepare_operations m paint_width paint_height,
          some op) ∧
      (op = GeglNode.reflect 0 ((paint_height : ℚ) / 2) 1 0 ↔
        stroke = 1 ∧ m.horizontal_mirror = true) ∧
      (op = GeglNode.reflect ((paint_width : ℚ) / 2) 0 0 1 ↔
        ((stroke = 2 ∧ m.horizontal_mirror = true ∧
          m.vertical_mirror = true) ∨
         (stroke = 1 ∧ m.vertical_mirror = true ∧
          m.horizontal_mirror = false))) ∧
      (op = GeglNode.reflect 0 ((paint_height : ℚ) / 2) 1 0 →
        m.strokes[stroke.toNat]? =
          some { o with y := 2 * m.horizontal_position - o.y }) ∧
      (op = GeglNode.reflect ((paint_width : ℚ) / 2) 0 0 1 →
        m.strokes[stroke.toNat]? =
          some { o with x := 2 * m.vertical_position - o.x }) ∧
      (op = GeglNode.rotate ((paint_width : ℚ) / 2)
          ((paint_height : ℚ) / 2) 180 →
        m.strokes[stroke.toNat]? =
          some { o with
                 x := 2 * m.vertical_position - o.x
                 y := 2 * m.horizontal_position - o.y }) ∧
      (op = GeglNode.reflect 0 ((paint_height : ℚ) / 2) 1 0 ∨
       op = GeglNode.reflect ((paint_width : ℚ) / 2) 0 0 1 ∨
       op = GeglNode.rotate ((paint_width : ℚ) / 2)
         ((paint_height : ℚ) / 2) 180) := by
  have hw0 : paint_width ≠ 0 := by omega
  have hh0 : paint_height ≠ 0 := by omega
  obtain ⟨hop1, hop2, hop3⟩ :=
    prepare_operations_ops m paint_width paint_height hw hh hc
  have hnorm := gimp_mirror_get_operation_normal m stroke paint_width
    paint_height ⟨by omega, h2⟩ hd (by omega) hw0 hh0
  cases hhm : m.horizontal_mirror <;> cases hvm : m.vertical_mirror <;>
    cases hpm : m.point_symmetry <;>
      simp only [gimp_mirror_update_strokes, hhm, hvm, hpm, if_true,
        if_false, Bool.false_eq_true, ite_false, ite_true,
        List.reverse_cons, List.reverse_nil, List.nil_append,
        List.cons_append, List.append_nil] at hstrokes <;>
      rw [hstrokes] at h2 <;> simp only [List.length_cons,
        List.length_nil] at h2 <;> norm_num at h2
  · omega
  · -- point symmetry only, stroke = 1: central rotation
    have hs1 : stroke = 1 := by omega
    subst hs1
    exact ⟨GeglNode.rotate ((paint_width : ℚ) / 2) ((paint_height : ℚ) / 2)
        180,
      by rw [hnorm, hop1, hop2, hop3]; norm_num [hhm, hvm],
      by norm_num [hhm], by norm_num [hhm, hvm],
      by norm_num, by norm_num, by norm_num [hstrokes, Int.toNat_ofNat], by norm_num⟩
  · -- vertical only, stroke = 1: vertical reflection
    have hs1 : stroke = 1 := by omega
    subst hs1
    exact ⟨GeglNode.reflect ((paint_width : ℚ) / 2) 0 0 1,
      by rw [hnorm, hop1, hop2, hop3]; norm_num [hhm, hvm],
      by norm_num [hhm], by norm_num [hhm, hvm],
      by norm_num, by norm_num [hstrokes, Int.toNat_ofNat], by norm_num, by norm_num⟩
  · -- vertical and point, stroke ∈ {1, 2}
    have hs : stroke = 1 ∨ stroke = 2 := by omega
    rcases hs with hs | hs <;> subst hs
    · exact ⟨GeglNode.reflect ((paint_width : ℚ) / 2) 0 0 1,
        by rw [hnorm, hop1, hop2, hop3]; norm_num [hhm, hvm],
        by norm_num [hhm], by norm_num [hhm, hvm],
        by norm_num, by norm_num [hstrokes, Int.toNat_ofNat], by norm_num, by norm_num⟩
    · exact ⟨GeglNode.rotate ((paint_width : ℚ) / 2)
          ((paint_height : ℚ) / 2) 180,
        by rw [hnorm, hop1, hop2, hop3]; norm_num [hhm, hvm],
        by norm_num [hhm], by norm_num [hhm, hvm],
        by norm_num, by norm_num, by norm_num [hstrokes, Int.toNat_ofNat], by norm_num⟩
  · -- horizontal only, stroke = 1: horizontal reflection
    have hs1 : stroke = 1 := by omega
    subst hs1
    exact ⟨GeglNode.reflect 0 ((paint_height : ℚ) / 2) 1 0,
      by rw [hnorm, hop1, hop2, hop3]; norm_num [hhm, hvm],
      by norm_num [hhm], by norm_num [hhm, hvm],
      by norm_num [hstrokes, Int.toNat_ofNat], by norm_num, by norm_num, by norm_num⟩
  · -- horizontal and point, stroke ∈ {1, 2}
    have hs : stroke = 1 ∨ stroke = 2 := by omega
    rcases hs with hs | hs <;> subst hs
    · exact ⟨GeglNode.reflect 0 ((paint_height : ℚ) / 2) 1 0,
        by rw [hnorm, hop1, hop2, hop3]; norm_num [hhm, hvm],
        by norm_num [hhm], by norm_num [hhm, hvm],
        by norm_num [hstrokes, Int.toNat_ofNat], by norm_num, by norm_num, by norm_num⟩
    · exact ⟨GeglNode.rotate ((paint_width : ℚ) / 2)
          ((paint_height : ℚ) / 2) 180,
        by rw [hnorm, hop1, hop2, hop3]; norm_num [hhm, hvm],
        by norm_num [hhm], by norm_num [hhm, hvm],
        by norm_num, by norm_num, by norm_num [hstrokes, Int.toNat_ofNat], by norm_num⟩
  · -- both axes, stroke ∈ {1, 2}
    have hs : stroke = 1 ∨ stroke = 2 := by omega
    rcases hs with hs | hs <;> subst hs
    · exact ⟨GeglNode.reflect 0 ((paint_height : ℚ) / 2) 1 0,
        by rw [hnorm, hop1, hop2, hop3]; norm_num [hhm, hvm],
        by norm_num [hhm], by norm_num [hhm, hvm],
        by norm_num [hstrokes, Int.toNat_ofNat], by norm_num, by norm_num, by norm_num⟩
    · exact ⟨GeglNode.reflect ((paint_width : ℚ) / 2) 0 0 1,
        by rw [hnorm, hop1, hop2, hop3]; norm_num [hhm, hvm],
        by norm_num [hhm], by norm_num [hhm, hvm],
        by norm_num, by norm_num [hstrokes, Int.toNat_ofNat], by norm_num, by norm_num⟩
  · -- all three flags, stroke ∈ {1, 2, 3}
    have hs : stroke = 1 ∨ stroke = 2 ∨ stroke = 3 := by omega
    rcases hs with hs | hs | hs <;> subst hs
    · exact ⟨GeglNode.reflect 0 ((paint_height : ℚ) / 2) 1 0,
        by rw [hnorm, hop1, hop2, hop3]; norm_num [hhm, hvm],
        by norm_num [hhm], by norm_num [hhm, hvm],
        by norm_num [hstrokes, Int.toNat_ofNat], by norm_num, by norm_num, by norm_num⟩
    · exact ⟨GeglNode.reflect ((paint_width : ℚ) / 2) 0 0 1,
        by rw [hnorm, hop1, hop2, hop3]; norm_num [hhm, hvm],
        by norm_num [hhm], by norm_num [hhm, hvm],
        by norm_num, by norm_num [hstrokes, Int.toNat_ofNat], by norm_num, by norm_num⟩
    · exact ⟨GeglNode.rotate ((paint_width : ℚ) / 2)
          ((paint_height : ℚ) / 2) 180,
        by rw [hnorm, hop1, hop2, hop3]; norm_num [hhm, hvm],
        by norm_num [hhm], by norm_num [hhm, hvm],
        by norm_num, by norm_num, by norm_num [hstrokes, Int.toNat_ofNat], by norm_num⟩

/-- Frame facts for `gimp_mirror_reset`: re-deriving the strokes leaves
every field except the stroke list (and the re-recorded origin, whose
value is unchanged) intact. -/
@[simp] lemma reset_hGuideAttached (w : MirrorWorld) :
    (gimp_mirror_reset w).hGuideAttached = w.hGuideAttached := by
  rcases h : w.mirror.origin <;>
    simp [gimp_mirror_reset, gimp_multi_stroke_set_origin, h]

@[simp] lemma reset_vGuideAttached (w : MirrorWorld) :
    (gimp_mirror_reset w).vGuideAttached = w.vGuideAttached := by
  rcases h : w.mirror.origin <;>
    simp [gimp_mirror_reset, gimp_multi_stroke_set_origin, h]

@[simp] lemma reset_hGuidePos (w : MirrorWorld) :
    (gimp_mirror_reset w).hGuidePos = w.hGuidePos := by
  rcases h : w.mirror.origin <;>
    simp [gimp_mirror_reset, gimp_multi_stroke_set_origin, h]

@[simp] lemma reset_vGuidePos (w : MirrorWorld) :
    (gimp_mirror_reset w).vGuidePos = w.vGuidePos := by
  rcases h : w.mirror.origin <;>
    simp [gimp_mirror_reset, gimp_multi_stroke_set_origin, h]

@[simp] lemma reset_removedCount (w : MirrorWorld) :
    (gimp_mirror_reset w).removedCount = w.removedCount := by
  rcases h : w.mirror.origin <;>
    simp [gimp_mirror_reset, gimp_multi_stroke_set_origin, h]

@[simp] lemma reset_horizontal_mirror (w : MirrorWorld) :
    (gimp_mirror_reset w).mirror.horizontal_mirror =
      w.mirror.horizontal_mirror := by
  rcases h : w.mirror.origin <;>
    simp [gimp_mirror_reset, gimp_multi_stroke_set_origin, h]

@[simp] lemma reset_vertical_mirror (w : MirrorWorld) :
    (gimp_mirror_reset w).mirror.vertical_mirror =
      w.mirror.vertical_mirror := by
  rcases h : w.mirror.origin <;>
    simp [gimp_mirror_reset, gimp_multi_stroke_set_origin, h]

@[simp] lemma reset_point_symmetry (w : MirrorWorld) :
    (gimp_mirror_reset w).mirror.point_symmetry =
      w.mirror.point_symmetry := by
  rcases h : w.mirror.origin <;>
    simp [gimp_mirror_reset, gimp_multi_stroke_set_origin, h]

@[simp] lemma reset_horizontal_guide (w : MirrorWorld) :
    (gimp_mirror_reset w).mirror.horizontal_guide =
      w.mirror.horizontal_guide := by
  rcases h : w.mirror.origin <;>
    simp [gimp_mirror_reset, gimp_multi_stroke_set_origin, h]

@[simp] lemma reset_vertical_guide (w : MirrorWorld) :
    (gimp_mirror_reset w).mirror.vertical_guide =
      w.mirror.vertical_guide := by
  rcases h : w.mirror.origin <;>
    simp [gimp_mirror_reset, gimp_multi_stroke_set_origin, h]

@[simp] lemma reset_horizontal_position (w : MirrorWorld) :
    (gimp_mirror_reset w).mirror.horizontal_position =
      w.mirror.horizontal_position := by
  rcases h : w.mirror.origin <;>
    simp [gimp_mirror_reset, gimp_multi_stroke_set_origin, h]

@[simp] lemma reset_vertical_position (w : MirrorWorld) :
    (gimp_mirror_reset w).mirror.vertical_position =
      w.mirror.vertical_position := by
  rcases h : w.mirror.origin <;>
    simp [gimp_mirror_reset, gimp_multi_stroke_set_origin, h]

lemma gimp_mirror_reset_strokes (w : MirrorWorld) (o : GimpCoords)
    (ho : w.mirror.origin = some o) :
    (gimp_mirror_reset w).mirror.strokes =
      gimp_mirror_update_strokes (gimp_mirror_reset w).mirror o := by
  have h : gimp_mirror_reset w = gimp_multi_stroke_set_origin w o := by
    simp [gimp_mirror_reset, ho]
  rw [h]
  rfl

/-- Guide attachment invariant: each axis's guide is in the image's
guide collection exactly when that axis's own flag or point symmetry is
active, and a guide in the collection has a live handle. -/
def guideInvariant (w : MirrorWorld) : Prop :=
  w.hGuideAttached = (w.mirror.horizontal_mirror || w.mirror.point_symmetry) ∧
  w.vGuideAttached = (w.mirror.vertical_mirror || w.mirror.point_symmetry) ∧
  (w.hGuideAttached = true → w.mirror.horizontal_guide = true) ∧
  (w.vGuideAttached = true → w.mirror.vertical_guide = true)

lemma set_horizontal_guideInvariant (w : MirrorWorld) (active : Bool)
    (hinv : guideInvariant w) :
    guideInvariant (gimp_mirror_set_horizontal_symmetry w active) := by
  obtain ⟨i1, i2, i3, i4⟩ := hinv
  by_cases h : active = w.mirror.horizontal_mirror
  · simpa [gimp_mirror_set_horizontal_symmetry, h, guideInvariant] using
      ⟨i1, i2, i3, i4⟩
  · cases active <;> cases hm : w.mirror.horizontal_mirror <;>
      cases hg : w.mirror.horizontal_guide <;>
      cases hp : w.mirror.point_symmetry <;>
        simp_all [gimp_mirror_set_horizontal_symmetry, guideInvariant]

lemma set_vertical_guideInvariant (w : MirrorWorld) (active : Bool)
    (hinv : guideInvariant w) :
    guideInvariant (gimp_mirror_set_vertical_symmetry w active) := by
  obtain ⟨i1, i2, i3, i4⟩ := hinv
  by_cases h : active = w.mirror.vertical_mirror
  · simpa [gimp_mirror_set_vertical_symmetry, h, guideInvariant] using
      ⟨i1, i2, i3, i4⟩
  · cases active <;> cases hm : w.mirror.vertical_mirror <;>
      cases hg : w.mirror.vertical_guide <;>
      cases hp : w.mirror.point_symmetry <;>
        simp_all [gimp_mirror_set_vertical_symmetry, guideInvariant]

lemma set_point_guideInvariant (w : MirrorWorld) (active : Bool)
    (hinv : guideInvariant w) :
    guideInvariant (gimp_mirror_set_point_symmetry w active) := by
  obtain ⟨i1, i2, i3, i4⟩ := hinv
  by_cases h : active = w.mirror.point_symmetry
  · simpa [gimp_mirror_set_point_symmetry, h, guideInvariant] using
      ⟨i1, i2, i3, i4⟩
  · cases active <;> cases hm : w.mirror.horizontal_mirror <;>
      cases hv : w.mirror.vertical_mirror <;>
      cases hgh : w.mirror.horizontal_guide <;>
      cases hgv : w.mirror.vertical_guide <;>
      cases hp : w.mirror.point_symmetry <;>
        simp_all [gimp_mirror_set_point_symmetry, guideInvariant]

lemma set_horizontal_keeps_hguide (w : MirrorWorld) (active : Bool)
    (hg : w.mirror.horizontal_guide = true) :
    (gimp_mirror_set_horizontal_symmetry w active).mirror.horizontal_guide =
      true := by
  by_cases h : active = w.mirror.horizontal_mirror
  · simp [gimp_mirror_set_horizontal_symmetry, h, hg]
  · cases active <;> cases hp : w.mirror.point_symmetry <;>
      simp_all [gimp_mirror_set_horizontal_symmetry]

lemma set_horizontal_vguide (w : MirrorWorld) (active : Bool) :
    (gimp_mirror_set_horizontal_symmetry w active).mirror.vertical_guide =
      w.mirror.vertical_guide := by
  by_cases h : active = w.mirror.horizontal_mirror
  · simp [gimp_mirror_set_horizontal_symmetry, h]
  · cases active <;> cases hg : w.mirror.horizontal_guide <;>
      cases hp : w.mirror.point_symmetry <;>
        simp_all [gimp_mirror_set_horizontal_symmetry]

lemma set_vertical_keeps_vguide (w : MirrorWorld) (active : Bool)
    (hg : w.mirror.vertical_guide = true) :
    (gimp_mirror_set_vertical_symmetry w active).mirror.vertical_guide =
      true := by
  by_cases h : active = w.mirror.vertical_mirror
  · simp [gimp_mirror_set_vertical_symmetry, h, hg]
  · cases active <;> cases hp : w.mirror.point_symmetry <;>
      simp_all [gimp_mirror_set_vertical_symmetry]

lemma set_vertical_hguide (w : MirrorWorld) (active : Bool) :
    (gimp_mirror_set_vertical_symmetry w active).mirror.horizontal_guide =
      w.mirror.horizontal_guide := by
  by_cases h : active = w.mirror.vertical_mirror
  · simp [gimp_mirror_set_vertical_symmetry, h]
  · cases active <;> cases hg : w.mirror.vertical_guide <;>
      cases hp : w.mirror.point_symmetry <;>
        simp_all [gimp_mirror_set_vertical_symmetry]

lemma set_point_keeps_hguide (w : MirrorWorld) (active : Bool)
    (hg : w.mirror.horizontal_guide = true) :
    (gimp_mirror_set_point_symmetry w active).mirror.horizontal_guide =
      true := by
  by_cases h : active = w.mirror.point_symmetry
  · simp [gimp_mirror_set_point_symmetry, h, hg]
  · cases active <;> cases hm : w.mirror.horizontal_mirror <;>
      cases hv : w.mirror.vertical_mirror <;>
      cases hgv : w.mirror.vertical_guide <;>
        simp_all [gimp_mirror_set_point_symmetry]

lemma set_point_keeps_vguide (w : MirrorWorld) (active : Bool)
    (hg : w.mirror.vertical_guide = true) :
    (gimp_mirror_set_point_symmetry w active).mirror.vertical_guide =
      true := by
  by_cases h : active = w.mirror.point_symmetry
  · simp [gimp_mirror_set_point_symmetry, h, hg]
  · cases active <;> cases hm : w.mirror.horizontal_mirror <;>
      cases hv : w.mirror.vertical_mirror <;>
      cases hgh : w.mirror.horizontal_guide <;>
        simp_all [gimp_mirror_set_point_symmetry]

/-- C5: starting from a state satisfying the guide attachment
invariant, any completed call to one of the three flag setters
preserves it — each axis's guide is in the image's guide collection
exactly when that axis's own flag or point symmetry is active — and no
setter ever destroys a guide handle: existing handles survive every
setter call (detaching is non-destructive). -/
theorem gimp_mirror_setters_guide_attachment_spec (w : MirrorWorld)
    (active : Bool) (hinv : guideInvariant w) :
    guideInvariant (gimp_mirror_set_horizontal_symmetry w active) ∧
    guideInvariant (gimp_mirror_set_vertical_symmetry w active) ∧
    guideInvariant (gimp_mirror_set_point_symmetry w active) ∧
    (w.mirror.horizontal_guide = true →
      (gimp_mirror_set_horizontal_symmetry w
        active).mirror.horizontal_guide = true ∧
      (gimp_mirror_set_vertical_symmetry w
        active).mirror.horizontal_guide = true ∧
      (gimp_mirror_set_point_symmetry w
        active).mirror.horizontal_guide = true) ∧
    (w.mirror.vertical_guide = true →
      (gimp_mirror_set_horizontal_symmetry w
        active).mirror.vertical_guide = true ∧
      (gimp_mirror_set_vertical_symmetry w
        active).mirror.vertical_guide = true ∧
      (gimp_mirror_set_point_symmetry w
        active).mirror.vertical_guide = true) :=
  ⟨set_horizontal_guideInvariant w active hinv,
   set_vertical_guideInvariant w active hinv,
   set_point_guideInvariant w active hinv,
   fun hg =>
     ⟨set_horizontal_keeps_hguide w active hg,
      (set_vertical_hguide w active).trans hg,
      set_point_keeps_hguide w active hg⟩,
   fun hg =>
     ⟨(set_horizontal_vguide w active).trans hg,
      set_vertical_keeps_vguide w active hg,
      set_point_keeps_vguide w active hg⟩⟩

/-- C8: each flag setter is idempotent — called with the flag's current
value it returns the state unchanged — and a setter call that changes
its flag ends by recomputing the stroke list from the last recorded
origin (when one has been recorded) under the updated state. -/
theorem gimp_mirror_setters_idempotent_reset_spec (w : MirrorWorld)
    (active : Bool) :
    (active = w.mirror.horizontal_mirror →
      gimp_mirror_set_horizontal_symmetry w active = w) ∧
    (active = w.mirror.vertical_mirror →
      gimp_mirror_set_vertical_symmetry w active = w) ∧
    (active = w.mirror.point_symmetry →
      gimp_mirror_set_point_symmetry w active = w) ∧
    (active ≠ w.mirror.horizontal_mirror → ∀ o,
      w.mirror.origin = some o →
      (gimp_mirror_set_horizontal_symmetry w active).mirror.strokes =
        gimp_mirror_update_strokes
          (gimp_mirror_set_horizontal_symmetry w active).mirror o) ∧
    (active ≠ w.mirror.vertical_mirror → ∀ o,
      w.mirror.origin = some o →
      (gimp_mirror_set_vertical_symmetry w active).mirror.strokes =
        gimp_mirror_update_strokes
          (gimp_mirror_set_vertical_symmetry w active).mirror o) ∧
    (active ≠ w.mirror.point_symmetry → ∀ o,
      w.mirror.origin = some o →
      (gimp_mirror_set_point_symmetry w active).mirror.strokes =
        gimp_mirror_update_strokes
          (gimp_mirror_set_point_symmetry w active).mirror o) := by
  refine ⟨fun h => ?_, fun h => ?_, fun h => ?_,
    fun hne o ho => ?_, fun hne o ho => ?_, fun hne o ho => ?_⟩
  · simp [gimp_mirror_set_horizontal_symmetry, h]
  · simp [gimp_mirror_set_vertical_symmetry, h]
  · simp [gimp_mirror_set_point_symmetry, h]
  · simp only [gimp_mirror_set_horizontal_symmetry, if_neg hne]
    apply gimp_mirror_reset_strokes
    split_ifs <;> simp [ho]
  · simp only [gimp_mirror_set_vertical_symmetry, if_neg hne]
    apply gimp_mirror_reset_strokes
    split_ifs <;> simp [ho]
  · simp only [gimp_mirror_set_point_symmetry, if_neg hne]
    apply gimp_mirror_reset_strokes
    split_ifs <;> simp [ho]

/-- C6: the removed-guide callback releases the signalled axis's
handle and resets that axis's flag, the point-symmetry flag and that
axis's position, leaving the other axis's flag, position and handle
untouched; the feature-teardown signal fires exactly when both handles
are then absent (and firing it once removes one count, so removing both
guides in sequence signals teardown exactly once), and otherwise the
stroke list is re-derived from the last recorded origin. -/
theorem gimp_mirror_guide_removed_cb_spec (w : MirrorWorld) :
    (w.mirror.horizontal_guide = true →
      (gimp_mirror_guide_removed_cb w .horizontal).mirror.horizontal_guide
          = false ∧
      (gimp_mirror_guide_removed_cb w .horizontal).mirror.horizontal_mirror
          = false ∧
      (gimp_mirror_guide_removed_cb w .horizontal).mirror.point_symmetry
          = false ∧
      (gimp_mirror_guide_removed_cb w
        .horizontal).mirror.horizontal_position = 0 ∧
      (gimp_mirror_guide_removed_cb w .horizontal).mirror.vertical_guide =
        w.mirror.vertical_guide ∧
      (gimp_mirror_guide_removed_cb w .horizontal).mirror.vertical_mirror =
        w.mirror.vertical_mirror ∧
      (gimp_mirror_guide_removed_cb w
        .horizontal).mirror.vertical_position = w.mirror.vertical_position ∧
      (w.mirror.vertical_guide = false →
        (gimp_mirror_guide_removed_cb w .horizontal).removedCount =
          w.removedCount + 1) ∧
      (w.mirror.vertical_guide = true →
        (gimp_mirror_guide_removed_cb w .horizontal).removedCount =
          w.removedCount ∧
        ∀ o, w.mirror.origin = some o →
          (gimp_mirror_guide_removed_cb w .horizontal).mirror.strokes =
            gimp_mirror_update_strokes
              (gimp_mirror_guide_removed_cb w .horizontal).mirror o)) ∧
    (w.mirror.vertical_guide = true →
      (gimp_mirror_guide_removed_cb w .vertical).mirror.vertical_guide
          = false ∧
      (gimp_mirror_guide_removed_cb w .vertical).mirror.vertical_mirror
          = false ∧
      (gimp_mirror_guide_removed_cb w .vertical).mirror.point_symmetry
          = false ∧
      (gimp_mirror_guide_removed_cb w
        .vertical).mirror.vertical_position = 0 ∧
      (gimp_mirror_guide_removed_cb w .vertical).mirror.horizontal_guide =
        w.mirror.horizontal_guide ∧
      (gimp_mirror_guide_removed_cb w .vertical).mirror.horizontal_mirror =
        w.mirror.horizontal_mirror ∧
      (gimp_mirror_guide_removed_cb w
        .vertical).mirror.horizontal_position =
        w.mirror.horizontal_position ∧
      (w.mirror.horizontal_guide = false →
        (gimp_mirror_guide_removed_cb w .vertical).removedCount =
          w.removedCount + 1) ∧
      (w.mirror.horizontal_guide = true →
        (gimp_mirror_guide_removed_cb w .vertical).removedCount =
          w.removedCount ∧
        ∀ o, w.mirror.origin = some o →
          (gimp_mirror_guide_removed_cb w .vertical).mirror.strokes =
            gimp_mirror_update_strokes
              (gimp_mirror_guide_removed_cb w .vertical).mirror o)) ∧
    (w.mirror.horizontal_guide = true → w.mirror.vertical_guide = true →
      (gimp_mirror_guide_removed_cb
        (gimp_mirror_guide_removed_cb w .horizontal) .vertical).removedCount
        = w.removedCount + 1) := by
  refine ⟨fun hg => ?_, fun hg => ?_, fun hg hv => ?_⟩
  · cases hvg : w.mirror.vertical_guide <;>
      (refine ⟨?_, ?_, ?_, ?_, ?_, ?_, ?_, fun hv => ?_, fun hv => ?_⟩ <;>
        simp_all [gimp_mirror_guide_removed_cb])
    · intro o ho
      apply gimp_mirror_reset_strokes
      simp [ho]
  · cases hvg : w.mirror.horizontal_guide <;>
      (refine ⟨?_, ?_, ?_, ?_, ?_, ?_, ?_, fun hv => ?_, fun hv => ?_⟩ <;>
        simp_all [gimp_mirror_guide_removed_cb])
    · intro o ho
      apply gimp_mirror_reset_strokes
      simp [ho]
  · simp [gimp_mirror_guide_removed_cb, hv]

/-- C10: setting the horizontal-position (respectively
vertical-position) property stores the value in the mirror state and,
exactly when that axis's guide handle exists, also moves the live
guide object to that position; with no handle, the stored field is the
only change to the whole state. -/
theorem gimp_mirror_set_position_property_spec (w : MirrorWorld)
    (value : ℚ) :
    ((gimp_mirror_set_horizontal_position w
        value).mirror.horizontal_position = value ∧
     (w.mirror.horizontal_guide = true →
       gimp_mirror_set_horizontal_position w value =
         { w with
           mirror := { w.mirror with horizontal_position := value }
           hGuidePos := value }) ∧
     (w.mirror.horizontal_guide = false →
       gimp_mirror_set_horizontal_position w value =
         { w with
           mirror := { w.mirror with horizontal_position := value } })) ∧
    ((gimp_mirror_set_vertical_position w
        value).mirror.vertical_position = value ∧
     (w.mirror.vertical_guide = true →
       gimp_mirror_set_vertical_position w value =
         { w with
           mirror := { w.mirror with vertical_position := value }
           vGuidePos := value }) ∧
     (w.mirror.vertical_guide = false →
       gimp_mirror_set_vertical_position w value =
         { w with
           mirror := { w.mirror with vertical_position := value } })) := by
  constructor
  · refine ⟨?_, fun hg => ?_, fun hg => ?_⟩ <;>
      cases hgv : w.mirror.horizontal_guide <;>
        simp_all [gimp_mirror_set_horizontal_position]
  · refine ⟨?_, fun hg => ?_, fun hg => ?_⟩ <;>
      cases hgv : w.mirror.vertical_guide <;>
        simp_all [gimp_mirror_set_vertical_position]

/-- A concrete origin coordinate used to exercise the theorems. -/
def testCoords : GimpCoords := ⟨3, 5, 7, 9, 11, 13, 15, 17⟩

/-- A mirror with no active flag and no recorded origin. -/
def testMirrorNone : GimpMirror :=
  ⟨false, false, false, false, 10, 20, false, false, 0, 0,
   none, none, none, none, []⟩

/-- A mirror with all three symmetry flags active, before stroke
derivation. -/
def testMirrorAllBase : GimpMirror :=
  ⟨true, true, true, false, 10, 20, true, true, 0, 0,
   none, none, none, some testCoords, []⟩

/-- The all-flags mirror with its stroke list freshly derived. -/
def testMirrorAll : GimpMirror :=
  { testMirrorAllBase with
    strokes := gimp_mirror_update_strokes testMirrorAllBase testCoords }

/-- A world around `testMirrorAll` with both guides attached. -/
def testWorld : MirrorWorld :=
  ⟨testMirrorAll, 100, 80, true, true, 20, 10, 0⟩

theorem gimp_mirror_update_strokes_spec_witness :
    gimp_mirror_update_strokes testMirrorNone testCoords = [testCoords] :=
  (gimp_mirror_update_strokes_spec testMirrorNone testCoords).2.2
    rfl rfl rfl

theorem gimp_mirror_update_strokes_frame_spec_witness :
    (gimp_mirror_update_strokes testMirrorAll testCoords)[1]? =
      some { testCoords with
             y := 2 * testMirrorAll.horizontal_position - testCoords.y } :=
  (gimp_mirror_update_strokes_frame_spec testMirrorAll testCoords).2.1 rfl

theorem gimp_mirror_get_operation_selection_spec_witness :
    ∃ op : GeglNode,
      gimp_mirror_get_operation testMirrorAll 1 40 60 =
        .ok (gimp_mirror_prepare_operations testMirrorAll 40 60,
          some op) :=
  Exists.elim
    (gimp_mirror_get_operation_selection_spec testMirrorAll testCoords 1
      40 60 (by decide) (by decide) (by decide)
      (Or.inl ⟨rfl, rfl, rfl, rfl, rfl⟩) rfl (by decide) (by decide))
    (fun op h => ⟨op, h.1⟩)

theorem gimp_mirror_get_operation_identity_spec_witness :
    gimp_mirror_get_operation testMirrorAll 0 40 60 =
      .ok (gimp_mirror_prepare_operations testMirrorAll 40 60, none) :=
  gimp_mirror_get_operation_identity_spec testMirrorAll 0 40 60
    (by decide) (by decide) (Or.inr (Or.inl rfl))

theorem gimp_mirror_get_operation_invalid_index_spec_witness :
    gimp_mirror_get_operation testMirrorAll 7 40 60 = .error () :=
  gimp_mirror_get_operation_invalid_index_spec testMirrorAll 7 40 60
    (by decide)

theorem gimp_mirror_setters_guide_attachment_spec_witness :
    guideInvariant (gimp_mirror_set_horizontal_symmetry testWorld false) :=
  (gimp_mirror_setters_guide_attachment_spec testWorld false
    ⟨rfl, rfl, fun _ => rfl, fun _ => rfl⟩).1

theorem gimp_mirror_guide_removed_cb_spec_witness :
    (gimp_mirror_guide_removed_cb
        (gimp_mirror_guide_removed_cb testWorld .horizontal)
        .vertical).removedCount = testWorld.removedCount + 1 :=
  (gimp_mirror_guide_removed_cb_spec testWorld).2.2 rfl rfl

theorem gimp_mirror_prepare_operations_cache_spec_witness :
    gimp_mirror_prepare_operations testMirrorAll 40 60 =
      { testMirrorAll with
        last_paint_width := 40
        last_paint_height := 60
        horizontal_op :=
          some (GeglNode.reflect 0 (((60 : Int) : ℚ) / 2) 1 0)
        vertical_op :=
          some (GeglNode.reflect (((40 : Int) : ℚ) / 2) 0 0 1)
        central_op :=
          some (GeglNode.rotate (((40 : Int) : ℚ) / 2)
            (((60 : Int) : ℚ) / 2) 180) } :=
  (gimp_mirror_prepare_operations_cache_spec testMirrorAll 40 60).2.2
    (by decide)

theorem gimp_mirror_setters_idempotent_reset_spec_witness :
    gimp_mirror_set_horizontal_symmetry testWorld true = testWorld :=
  (gimp_mirror_setters_idempotent_reset_spec testWorld true).1 rfl

theorem gimp_mirror_set_position_property_spec_witness :
    gimp_mirror_set_horizontal_position testWorld 42 =
      { testWorld with
        mirror := { testWorld.mirror with horizontal_position := 42 }
        hGuidePos := 42 } :=
  (gimp_mirror_set_position_property_spec testWorld 42).1.2.1 rfl
